import Mathlib

/-!
Shallow embedding of `Watchdog.Cpp` (greyhole-node detection simulation).

The C++ source defines two ns-3 applications and a handful of globals:

* `enum NodeStatus { NO_STATUS, POSITIVE_STATUS, NEGATIVE_STATUS }`
* `class GreyholeNode` with fields `m_node`, `m_dropProbability` and the
  packet handler `ReceivePacket`;
* `class WatchdogNode` with fields `m_node`, `m_gamma`, `m_reputation`,
  `m_threshold`, `m_monitorCount`, `m_receivedPackets`, `m_sentPackets`,
  `m_packetLossRate` and the handlers `MonitorNode` / `ProcessEvent`;
* globals `allNodesConverged : bool`, `nodesStatus : vector<bool>`,
  `convergenceTime : double`.

C++ `double` values that stay finite are modelled as `ℚ`.  The one place
where an IEEE-754 non-finite value can arise (the division
`(double)m_receivedPackets / m_sentPackets` with `m_sentPackets == 0`) is
modelled explicitly by the type `DVal` below, which distinguishes NaN and
the infinities from finite values.  Random draws
`(double)rand() / RAND_MAX` are modelled as an explicitly supplied
rational argument `r`.  The ns-3 scheduler is modelled by returning a
`Bool` flag that records whether the handler scheduled a further timer.
-/

set_option autoImplicit false
set_option linter.unnecessarySeqFocus false

/-- The three-valued status enum from the source (`NO_STATUS`,
`POSITIVE_STATUS`, `NEGATIVE_STATUS`). -/
inductive NodeStatus where
  | NO_STATUS : NodeStatus
  | POSITIVE_STATUS : NodeStatus
  | NEGATIVE_STATUS : NodeStatus
deriving DecidableEq, Repr

/-- Value of an IEEE-754 `double` computation: either a finite value
(modelled as a rational) or one of the non-finite results that a division
by zero produces. -/
inductive DVal where
  | nan : DVal
  | posInf : DVal
  | negInf : DVal
  | val : ℚ → DVal
deriving DecidableEq, Repr

/-- IEEE-754 semantics of `(double)a / b` for the nonnegative integer
counters of the source: `0/0` is NaN, `a/0` with `a > 0` is `+inf`,
otherwise the exact quotient. -/
def ddivNat (a b : ℕ) : DVal :=
  if b = 0 then (if a = 0 then DVal.nan else DVal.posInf)
  else DVal.val ((a : ℚ) / (b : ℚ))

/-- IEEE-754 semantics of `1.0 - d`: subtraction from a finite value maps
NaN to NaN and swaps the infinities. -/
def oneSub : DVal → DVal
  | DVal.nan => DVal.nan
  | DVal.posInf => DVal.negInf
  | DVal.negInf => DVal.posInf
  | DVal.val q => DVal.val (1 - q)

/-- Global state of the simulation: the C++ globals `allNodesConverged`,
`nodesStatus` (one entry per simulation node) and `convergenceTime`. -/
structure GlobalState where
  allNodesConverged : Bool
  nodesStatus : List Bool
  convergenceTime : ℚ
deriving DecidableEq, Repr

/-- State of one `GreyholeNode` application instance.  `m_node` holds the
id of the node the application was set up on (`0` for the null pointer of
the default constructor). -/
structure GreyholeNode where
  m_node : ℕ
  m_dropProbability : ℚ
deriving DecidableEq, Repr

namespace GreyholeNode

/-- The `GreyholeNode` constructor: null node, `m_dropProbability(0.5)`. -/
def construct : GreyholeNode :=
  { m_node := 0, m_dropProbability := 1/2 }

/-- `GreyholeNode::Setup`: stores the node and the drop probability,
unconditionally (the source performs no validation and no
already-attached check). -/
def Setup (s : GreyholeNode) (node : ℕ) (dropProbability : ℚ) : GreyholeNode :=
  { s with m_node := node, m_dropProbability := dropProbability }

/-- `GreyholeNode::ReceivePacket` for one delivered packet, given the
random draw `r = (double)rand() / RAND_MAX`: returns `true` iff the
packet is sent back out (`randomValue > m_dropProbability`); otherwise it
is dropped with only a log line. -/
def ReceivePacket (s : GreyholeNode) (r : ℚ) : Bool :=
  decide (r > s.m_dropProbability)

end GreyholeNode

/-- State of one `WatchdogNode` application instance. -/
structure WatchdogNode where
  m_node : ℕ
  m_gamma : ℚ
  m_reputation : ℚ
  m_threshold : ℚ
  m_monitorCount : ℕ
  m_receivedPackets : ℕ
  m_sentPackets : ℕ
  m_packetLossRate : DVal
deriving DecidableEq, Repr

/-- The constant `m_maxMonitorCount = 10` of the source. -/
def m_maxMonitorCount : ℕ := 10

namespace WatchdogNode

/-- The `WatchdogNode` constructor: `m_gamma(0.5)`, `m_reputation(0)`,
`m_threshold(1.0)`, `m_monitorCount(0)`, `m_receivedPackets(0)`,
`m_sentPackets(0)`, `m_packetLossRate(0.0)`. -/
def construct : WatchdogNode :=
  { m_node := 0, m_gamma := 1/2, m_reputation := 0, m_threshold := 1,
    m_monitorCount := 0, m_receivedPackets := 0, m_sentPackets := 0,
    m_packetLossRate := DVal.val 0 }

/-- `WatchdogNode::Setup`: stores the node and `gamma`, unconditionally
(no already-attached check in the source). -/
def Setup (s : WatchdogNode) (node : ℕ) (gamma : ℚ) : WatchdogNode :=
  { s with m_node := node, m_gamma := gamma }

/-- The three-way comparison at the end of `WatchdogNode::ProcessEvent`
(lines 216-227): the status logged for the node, computed fresh from
`m_reputation` against `m_threshold`.  The source only logs it; it is
factored out here as the classification function. -/
def classify (reputation threshold : ℚ) : NodeStatus :=
  if reputation ≥ threshold then NodeStatus.POSITIVE_STATUS
  else if reputation < -threshold then NodeStatus.NEGATIVE_STATUS
  else NodeStatus.NO_STATUS

/-- `WatchdogNode::ProcessEvent`: updates `m_reputation` and marks
`nodesStatus[m_node->GetId()]` for a non-`NO_STATUS` event, then (after
the log-only classification) recomputes `allNodesHaveInfo` over the whole
`nodesStatus` vector and performs the guarded convergence transition.
`now` is `Simulator::Now().GetSeconds()` at the call. -/
def ProcessEvent (s : WatchdogNode) (g : GlobalState) (now : ℚ) (event : NodeStatus) :
    WatchdogNode × GlobalState :=
  let (s', g') :=
    match event with
    | NodeStatus.POSITIVE_STATUS =>
        ({ s with m_reputation := s.m_reputation + 1 },
         { g with nodesStatus := g.nodesStatus.set s.m_node true })
    | NodeStatus.NEGATIVE_STATUS =>
        ({ s with m_reputation := s.m_reputation - 1 },
         { g with nodesStatus := g.nodesStatus.set s.m_node true })
    | NodeStatus.NO_STATUS => (s, g)
  let allNodesHaveInfo := g'.nodesStatus.all (fun b => b)
  if allNodesHaveInfo && !g'.allNodesConverged then
    (s', { g' with allNodesConverged := true, convergenceTime := now })
  else
    (s', g')

/-- The evidence drawn in a non-terminal round of
`WatchdogNode::MonitorNode`: `event = NO_STATUS`, then
`randomValue < 0.33` sets `POSITIVE_STATUS`,
`else if randomValue < 0.66` sets `NEGATIVE_STATUS`. -/
def evidenceOf (r : ℚ) : NodeStatus :=
  if r < 33/100 then NodeStatus.POSITIVE_STATUS
  else if r < 66/100 then NodeStatus.NEGATIVE_STATUS
  else NodeStatus.NO_STATUS

/-- `WatchdogNode::MonitorNode`, given the random draw `r` and the
current time `now`.  The returned `Bool` is `true` iff the handler called
`Simulator::Schedule` for a further round.  In the terminal branch
(`m_monitorCount >= m_maxMonitorCount || allNodesConverged`) it stores
`1.0 - ((double)m_receivedPackets / m_sentPackets)` and returns without
scheduling; otherwise it processes one evidence sample, increments
`m_monitorCount` and reschedules unconditionally. -/
def MonitorNode (s : WatchdogNode) (g : GlobalState) (r now : ℚ) :
    WatchdogNode × GlobalState × Bool :=
  if decide (s.m_monitorCount ≥ m_maxMonitorCount) || g.allNodesConverged then
    ({ s with m_packetLossRate := oneSub (ddivNat s.m_receivedPackets s.m_sentPackets) },
     g, false)
  else
    let sg := ProcessEvent s g now (evidenceOf r)
    ({ sg.1 with m_monitorCount := sg.1.m_monitorCount + 1 }, sg.2, true)

end WatchdogNode

/-- One operation on a `WatchdogNode` instance over its lifetime.
`startApp` and `stopApp` only schedule/cancel the timer in the source and
touch no counter field, so they act as the identity on the modelled
state; `monitor` and `process` carry the global state and inputs seen at
the call. -/
inductive WatchdogOp where
  | setup (node : ℕ) (gamma : ℚ) : WatchdogOp
  | startApp : WatchdogOp
  | stopApp : WatchdogOp
  | monitor (g : GlobalState) (r now : ℚ) : WatchdogOp
  | process (g : GlobalState) (now : ℚ) (event : NodeStatus) : WatchdogOp

/-- Effect of one operation on the local `WatchdogNode` state. -/
def applyOp (s : WatchdogNode) : WatchdogOp → WatchdogNode
  | WatchdogOp.setup n gamma => WatchdogNode.Setup s n gamma
  | WatchdogOp.startApp => s
  | WatchdogOp.stopApp => s
  | WatchdogOp.monitor g r now => (WatchdogNode.MonitorNode s g r now).1
  | WatchdogOp.process g now e => (WatchdogNode.ProcessEvent s g now e).1

/-- Error taxonomy of the spec's setup contract (the source has no such
checks; this type exists to state the checked variants that follow the
spec's words). -/
inductive SetupError where
  | AlreadyAttached : SetupError
  | InvalidDropProbability : SetupError
deriving DecidableEq, Repr

/-- Follows the spec's words, for comparison with `GreyholeNode.Setup`:
a `dropProbability` outside `[0,1]` is rejected synchronously at setup
time. -/
def GreyholeSetupChecked (node : ℕ) (dropProbability : ℚ) :
    Except SetupError GreyholeNode :=
  if dropProbability < 0 ∨ 1 < dropProbability then
    Except.error SetupError.InvalidDropProbability
  else
    Except.ok { m_node := node, m_dropProbability := dropProbability }

/-- Follows the spec's words, for comparison with `WatchdogNode.Setup`:
calling setup twice on a live instance is an `AlreadyAttached` error. -/
def WatchdogSetupChecked (attached : Bool) (s : WatchdogNode) (node : ℕ) (gamma : ℚ) :
    Except SetupError WatchdogNode :=
  if attached then Except.error SetupError.AlreadyAttached
  else Except.ok (WatchdogNode.Setup s node gamma)

/-- Follows the spec's words, for comparison with
`WatchdogNode.evidenceOf`: the claimed evidence map by exact thirds of
`[0,1)`. -/
def evidenceOfSpecThirds (r : ℚ) : NodeStatus :=
  if r < 1/3 then NodeStatus.POSITIVE_STATUS
  else if r < 2/3 then NodeStatus.NEGATIVE_STATUS
  else NodeStatus.NO_STATUS

/-- Signed contribution of one evidence sample to `m_reputation` in
`WatchdogNode::ProcessEvent` (`+1.0` for positive, `-1.0` for negative,
no change for `NO_STATUS`). -/
def evidenceDelta : NodeStatus → ℚ
  | NodeStatus.NO_STATUS => 0
  | NodeStatus.POSITIVE_STATUS => 1
  | NodeStatus.NEGATIVE_STATUS => -1

/-- Folding `WatchdogNode::ProcessEvent` over a finite list of
`(now, event)` samples delivered to one watchdog. -/
def processRun (s : WatchdogNode) (g : GlobalState) :
    List (ℚ × NodeStatus) → WatchdogNode × GlobalState
  | [] => (s, g)
  | (now, e) :: rest =>
      processRun (WatchdogNode.ProcessEvent s g now e).1
        (WatchdogNode.ProcessEvent s g now e).2 rest

/-- Number of invocations in a sequence of `MonitorNode` timer firings
(with the global state, draw and time seen at each call supplied
externally) that take the non-terminal branch and process an evidence
sample. -/
def evidenceRounds (s : WatchdogNode) : List (GlobalState × ℚ × ℚ) → ℕ
  | [] => 0
  | (g, r, now) :: rest =>
      (if decide (s.m_monitorCount < m_maxMonitorCount) && !g.allNodesConverged then 1 else 0)
        + evidenceRounds (WatchdogNode.MonitorNode s g r now).1 rest

/-- One shared-state-mutating callback in an execution: a `ProcessEvent`
or `MonitorNode` call by some watchdog instance (the discrete-event
scheduler runs callbacks one at a time, so an execution is a list of
these). -/
inductive GEvent where
  | process (s : WatchdogNode) (now : ℚ) (event : NodeStatus) : GEvent
  | monitor (s : WatchdogNode) (r now : ℚ) : GEvent

/-- Effect of one callback on the global state. -/
def gstep (g : GlobalState) : GEvent → GlobalState
  | GEvent.process s now e => (WatchdogNode.ProcessEvent s g now e).2
  | GEvent.monitor s r now => (WatchdogNode.MonitorNode s g r now).2.1

/-- Number of false-to-true transitions of `allNodesConverged` along a
trace of callbacks. -/
def convergedTransitions (g : GlobalState) : List GEvent → ℕ
  | [] => 0
  | e :: rest =>
      (if g.allNodesConverged = false ∧ (gstep g e).allNodesConverged = true then 1 else 0)
        + convergedTransitions (gstep g e) rest

/-- Number of steps along a trace at which the value of
`convergenceTime` changes. -/
def timeWrites (g : GlobalState) : List GEvent → ℕ
  | [] => 0
  | e :: rest =>
      (if (gstep g e).convergenceTime ≠ g.convergenceTime then 1 else 0)
        + timeWrites (gstep g e) rest

/-- Global state in which all 24 entries of `nodesStatus` belonging to
watchdog-monitored nodes (`main` attaches watchdogs to nodes `0..23` of
the 27 created nodes) are decided, while the three non-watchdog entries
(source 24, greyhole 25, sink 26) are still false — as they remain for
the whole run, since only `ProcessEvent` ever sets an entry and only for
the watchdog's own node. -/
def c1G : GlobalState :=
  { allNodesConverged := false,
    nodesStatus := List.replicate 24 true ++ List.replicate 3 false,
    convergenceTime := 0 }

/-- A watchdog instance attached as in `main`: node `0`, gamma `0.5`. -/
def c1W : WatchdogNode := WatchdogNode.Setup WatchdogNode.construct 0 (1/2)

/-- Concrete execution of one watchdog's timer chain: the watchdog of
node `0` as configured in `main`, a two-entry `nodesStatus` whose second
entry is never marked (so the run never converges), and a draw of `0.9`
(Unknown evidence) at every firing.  `c3after n` is the
`(local, global, scheduled)` configuration after `n` timer firings; the
initial `true` records the timer registered by `StartApplication`. -/
def c3after : ℕ → WatchdogNode × GlobalState × Bool
  | 0 => (WatchdogNode.Setup WatchdogNode.construct 0 (1/2),
          { allNodesConverged := false, nodesStatus := [false, false], convergenceTime := 0 },
          true)
  | n + 1 =>
      let p := c3after n
      WatchdogNode.MonitorNode p.1 p.2.1 (9/10) ((n : ℚ) + 2)

/-- Claim C4, counterexample: the source compares the draw against `0.33`
and `0.66`, not against exact thirds.  At `r = 0.33` (which is `< 1/3`)
the claim demands Positive but the code yields Negative; at `r = 0.66`
(which is `< 2/3`) the claim demands Negative but the code yields
Unknown. -/
theorem C4_thirds_counterexample :
    (33/100 : ℚ) < 1/3
      ∧ evidenceOfSpecThirds (33/100) = NodeStatus.POSITIVE_STATUS
      ∧ WatchdogNode.evidenceOf (33/100) = NodeStatus.NEGATIVE_STATUS
      ∧ (66/100 : ℚ) < 2/3
      ∧ evidenceOfSpecThirds (66/100) = NodeStatus.NEGATIVE_STATUS
      ∧ WatchdogNode.evidenceOf (66/100) = NodeStatus.NO_STATUS := by
  refine ⟨by norm_num, ?_, ?_, by norm_num, ?_, ?_⟩ <;>
    norm_num [evidenceOfSpecThirds, WatchdogNode.evidenceOf]

/-- Claim C4, amended: in every non-terminal round the single uniform
draw `r` is mapped to evidence by the bands `r < 0.33` (Positive),
`0.33 ≤ r < 0.66` (Negative) and `0.66 ≤ r` (Unknown) — the cut points
are the literals `0.33` and `0.66`, not exact thirds. -/
theorem C4_evidence_bands (r : ℚ) :
    (r < 33/100 → WatchdogNode.evidenceOf r = NodeStatus.POSITIVE_STATUS)
  ∧ (33/100 ≤ r → r < 66/100 → WatchdogNode.evidenceOf r = NodeStatus.NEGATIVE_STATUS)
  ∧ (66/100 ≤ r → WatchdogNode.evidenceOf r = NodeStatus.NO_STATUS) := by
  unfold WatchdogNode.evidenceOf
  refine ⟨fun h => ?_, fun h1 h2 => ?_, fun h => ?_⟩
  · rw [if_pos h]
  · rw [if_neg (by linarith), if_pos h2]
  · rw [if_neg (by linarith), if_neg (by linarith)]

/-- Claim C4, witness for the amended theorem at `r = 1/10`. -/
theorem C4_evidence_bands_witness :
    WatchdogNode.evidenceOf (1/10) = NodeStatus.POSITIVE_STATUS :=
  (C4_evidence_bands (1/10)).1 (by norm_num)

/-- Claim C6: with the default threshold `1.0` (the constructor value,
which `Setup` never changes), classification is an exact three-way band:
`reputation ≥ 1` is POSITIVE_STATUS, `reputation < -1` is
NEGATIVE_STATUS, and everything in between — including exactly `-1` — is
NO_STATUS, while exactly `1` is POSITIVE_STATUS. -/
theorem C6_classification_bands (rep : ℚ) (s : WatchdogNode) (n : ℕ) (γ : ℚ) :
    (WatchdogNode.classify rep 1 = NodeStatus.POSITIVE_STATUS ↔ 1 ≤ rep)
  ∧ (WatchdogNode.classify rep 1 = NodeStatus.NEGATIVE_STATUS ↔ rep < -1)
  ∧ (WatchdogNode.classify rep 1 = NodeStatus.NO_STATUS ↔ -1 ≤ rep ∧ rep < 1)
  ∧ WatchdogNode.classify (-1) 1 = NodeStatus.NO_STATUS
  ∧ WatchdogNode.classify 1 1 = NodeStatus.POSITIVE_STATUS
  ∧ WatchdogNode.classify (-10001/10000) 1 = NodeStatus.NEGATIVE_STATUS
  ∧ WatchdogNode.construct.m_threshold = 1
  ∧ (WatchdogNode.Setup s n γ).m_threshold = s.m_threshold := by
  unfold WatchdogNode.classify
  refine ⟨?_, ?_, ?_, by norm_num, by norm_num, by norm_num, rfl, rfl⟩ <;>
    split_ifs with h1 h2 <;> simp_all <;> linarith

/-- Claim C8, counterexample: `r = 0` is a valid draw in `[0,1)`, and
with `dropProbability = 0` the comparison `r > 0` fails, so the packet is
dropped — not every packet is forwarded at `dropProbability = 0`. -/
theorem C8_dropzero_counterexample :
    (0 : ℚ) ≤ 0 ∧ (0 : ℚ) < 1
      ∧ GreyholeNode.ReceivePacket { m_node := 25, m_dropProbability := 0 } 0 = false := by
  refine ⟨le_refl 0, by norm_num, ?_⟩
  simp [GreyholeNode.ReceivePacket]

/-- Claim C8, amended: a received packet is forwarded iff the draw is
strictly greater than `dropProbability`; hence with `dropProbability = 0`
every packet whose draw is strictly positive is forwarded (a draw of
exactly `0` is dropped), and with `dropProbability = 1` no packet with a
draw in `[0,1)` is forwarded. -/
theorem C8_receive_forward_iff (s : GreyholeNode) (r : ℚ) :
    (GreyholeNode.ReceivePacket s r = true ↔ s.m_dropProbability < r)
  ∧ (s.m_dropProbability = 0 → 0 < r → GreyholeNode.ReceivePacket s r = true)
  ∧ (s.m_dropProbability = 1 → r < 1 → GreyholeNode.ReceivePacket s r = false) := by
  refine ⟨?_, fun hp hr => ?_, fun hp hr => ?_⟩
  · simp [GreyholeNode.ReceivePacket]
  · simp [GreyholeNode.ReceivePacket, hp]
    exact hr
  · simp [GreyholeNode.ReceivePacket, hp]
    linarith

/-- Claim C8, witness for the amended theorem: with `dropProbability = 1`
a draw of `1/2` is not forwarded. -/
theorem C8_receive_forward_iff_witness :
    GreyholeNode.ReceivePacket { m_node := 25, m_dropProbability := 1 } (1/2) = false :=
  (C8_receive_forward_iff { m_node := 25, m_dropProbability := 1 } (1/2)).2.2 rfl (by norm_num)

/-- Claim C9, counterexample: the source `Setup` functions validate
nothing.  A `dropProbability` of `2` (outside `[0,1]`) is stored
unchanged where the spec's checked setup rejects it, and a second
`Setup` on a live watchdog silently overwrites node and gamma where the
spec's checked setup reports `AlreadyAttached`. -/
theorem C9_setup_unchecked_counterexample :
    (GreyholeNode.Setup GreyholeNode.construct 25 2).m_dropProbability = 2
  ∧ GreyholeSetupChecked 25 2 = Except.error SetupError.InvalidDropProbability
  ∧ (WatchdogNode.Setup (WatchdogNode.Setup WatchdogNode.construct 3 (1/2)) 4 (3/4)).m_gamma = 3/4
  ∧ (WatchdogNode.Setup (WatchdogNode.Setup WatchdogNode.construct 3 (1/2)) 4 (3/4)).m_node = 4
  ∧ WatchdogSetupChecked true (WatchdogNode.Setup WatchdogNode.construct 3 (1/2)) 4 (3/4)
      = Except.error SetupError.AlreadyAttached := by
  refine ⟨rfl, ?_, rfl, rfl, rfl⟩
  simp [GreyholeSetupChecked]

/-- Claim C9, amended: setup performs no validation at all — any
`dropProbability`, in range or not, is stored as given, and a repeated
`Setup` silently overwrites the previously stored node and parameter
without error. -/
theorem C9_setup_unvalidated (gs : GreyholeNode) (ws : WatchdogNode) (node : ℕ) (p γ : ℚ) :
    (GreyholeNode.Setup gs node p).m_dropProbability = p
  ∧ (GreyholeNode.Setup gs node p).m_node = node
  ∧ (WatchdogNode.Setup ws node γ).m_gamma = γ
  ∧ (WatchdogNode.Setup ws node γ).m_node = node := by
  exact ⟨rfl, rfl, rfl, rfl⟩

/-- The local component of `ProcessEvent`: only `m_reputation` changes,
by the signed contribution of the event. -/
theorem ProcessEvent_fst (s : WatchdogNode) (g : GlobalState) (now : ℚ) (e : NodeStatus) :
    (WatchdogNode.ProcessEvent s g now e).1
      = { s with m_reputation := s.m_reputation + evidenceDelta e } := by
  cases e <;>
    simp only [WatchdogNode.ProcessEvent, evidenceDelta] <;>
    split <;>
    simp [sub_eq_add_neg]

/-- Marking in `ProcessEvent`: a non-Unknown event sets the watchdog's
own entry of `nodesStatus`; `NO_STATUS` leaves the vector unchanged. -/
theorem ProcessEvent_nodesStatus (s : WatchdogNode) (g : GlobalState) (now : ℚ) (e : NodeStatus) :
    (WatchdogNode.ProcessEvent s g now e).2.nodesStatus
      = if e = NodeStatus.NO_STATUS then g.nodesStatus
        else g.nodesStatus.set s.m_node true := by
  cases e <;>
    simp only [WatchdogNode.ProcessEvent] <;>
    split <;>
    simp

/-- The convergence flag after `ProcessEvent` is the old flag or-ed with
"every entry of the updated `nodesStatus` is true". -/
theorem ProcessEvent_converged (s : WatchdogNode) (g : GlobalState) (now : ℚ) (e : NodeStatus) :
    (WatchdogNode.ProcessEvent s g now e).2.allNodesConverged
      = (g.allNodesConverged
          || (WatchdogNode.ProcessEvent s g now e).2.nodesStatus.all (fun b => b)) := by
  cases e <;>
    simp only [WatchdogNode.ProcessEvent] <;>
    split <;>
    rename_i h <;>
    cases hc : g.allNodesConverged <;>
    simp_all

/-- `convergenceTime` after `ProcessEvent`: set to `now` exactly when the
guarded transition fires, otherwise unchanged. -/
theorem ProcessEvent_time (s : WatchdogNode) (g : GlobalState) (now : ℚ) (e : NodeStatus) :
    (WatchdogNode.ProcessEvent s g now e).2.convergenceTime
      = if ((WatchdogNode.ProcessEvent s g now e).2.nodesStatus.all (fun b => b))
            && !g.allNodesConverged then now else g.convergenceTime := by
  cases e <;>
    simp only [WatchdogNode.ProcessEvent] <;>
    split <;>
    rename_i h <;>
    simp_all

/-- The terminal branch of `MonitorNode`: when the round cap is reached
or the global flag is set, the handler only stores the loss rate and does
not reschedule. -/
theorem MonitorNode_terminal (s : WatchdogNode) (g : GlobalState) (r now : ℚ)
    (h : m_maxMonitorCount ≤ s.m_monitorCount ∨ g.allNodesConverged = true) :
    WatchdogNode.MonitorNode s g r now
      = ({ s with m_packetLossRate := oneSub (ddivNat s.m_receivedPackets s.m_sentPackets) },
         g, false) := by
  unfold WatchdogNode.MonitorNode
  rw [if_pos]
  rcases h with h | h
  · simp [h]
  · simp [h]

/-- The non-terminal branch of `MonitorNode`: one evidence sample is
processed, `m_monitorCount` is incremented, and a further round is
scheduled unconditionally. -/
theorem MonitorNode_nonterminal (s : WatchdogNode) (g : GlobalState) (r now : ℚ)
    (hc : s.m_monitorCount < m_maxMonitorCount) (hg : g.allNodesConverged = false) :
    WatchdogNode.MonitorNode s g r now
      = ({ (WatchdogNode.ProcessEvent s g now (WatchdogNode.evidenceOf r)).1 with
             m_monitorCount :=
               (WatchdogNode.ProcessEvent s g now (WatchdogNode.evidenceOf r)).1.m_monitorCount + 1 },
         (WatchdogNode.ProcessEvent s g now (WatchdogNode.evidenceOf r)).2, true) := by
  unfold WatchdogNode.MonitorNode
  rw [if_neg]
  simp [hg, Nat.not_le.mpr hc]

/-- No operation of a watchdog's lifetime ever changes `m_sentPackets`
or `m_receivedPackets`. -/
theorem applyOp_counters (s : WatchdogNode) (op : WatchdogOp) :
    (applyOp s op).m_sentPackets = s.m_sentPackets
  ∧ (applyOp s op).m_receivedPackets = s.m_receivedPackets := by
  cases op with
  | setup n gamma => exact ⟨rfl, rfl⟩
  | startApp => exact ⟨rfl, rfl⟩
  | stopApp => exact ⟨rfl, rfl⟩
  | monitor g r now =>
      simp only [applyOp]
      unfold WatchdogNode.MonitorNode
      split
      · exact ⟨rfl, rfl⟩
      · simp [ProcessEvent_fst]
  | process g now e =>
      simp [applyOp, ProcessEvent_fst]

/-- Claim C10: over any sequence of lifetime operations starting from the
constructor state, `m_sentPackets` and `m_receivedPackets` remain `0`, so
the divisor of the terminal loss-rate computation is always `0`. -/
theorem C10_packet_counters_frozen (ops : List WatchdogOp) :
    ((ops.foldl applyOp WatchdogNode.construct).m_sentPackets = 0)
  ∧ ((ops.foldl applyOp WatchdogNode.construct).m_receivedPackets = 0) := by
  suffices h : ∀ s, ((ops.foldl applyOp s).m_sentPackets = s.m_sentPackets)
      ∧ ((ops.foldl applyOp s).m_receivedPackets = s.m_receivedPackets) by
    exact h WatchdogNode.construct
  induction ops with
  | nil => exact fun s => ⟨rfl, rfl⟩
  | cons op rest ih =>
      intro s
      simp only [List.foldl_cons]
      exact ⟨((ih (applyOp s op)).1).trans (applyOp_counters s op).1,
             ((ih (applyOp s op)).2).trans (applyOp_counters s op).2⟩

/-- Claim C5: applying evidence updates reputation by `+1` (Positive),
`-1` (Negative), `0` (Unknown), so after any finite evidence sequence the
reputation is the starting value plus the signed sum of contributions;
Positive and Negative evidence mark the node's entry of `nodesStatus`
while Unknown leaves the vector unchanged. -/
theorem C5_reputation_signed_sum (s : WatchdogNode) (g : GlobalState)
    (l : List (ℚ × NodeStatus)) (now : ℚ) (e : NodeStatus) :
    (processRun s g l).1.m_reputation
        = s.m_reputation + (l.map (fun p => evidenceDelta p.2)).sum
  ∧ (WatchdogNode.ProcessEvent s g now e).1.m_reputation
        = s.m_reputation + evidenceDelta e
  ∧ (WatchdogNode.ProcessEvent s g now e).2.nodesStatus
        = (if e = NodeStatus.NO_STATUS then g.nodesStatus
           else g.nodesStatus.set s.m_node true) := by
  refine ⟨?_, by rw [ProcessEvent_fst], ProcessEvent_nodesStatus s g now e⟩
  induction l generalizing s g with
  | nil => simp [processRun]
  | cons p rest ih =>
      obtain ⟨t, ev⟩ := p
      simp only [processRun, List.map_cons, List.sum_cons]
      rw [ih, ProcessEvent_fst]
      show s.m_reputation + evidenceDelta ev + _ = _
      ring

/-- Claim C1, counterexample: in `main` watchdogs run only on nodes
`0..23` of 27, while `nodesStatus` has one entry for every node.  In a
state where all 24 watchdog entries are decided (and the three
non-watchdog entries are still false, as they remain forever), processing
a further event does not set the converged flag — so the flag is not set
at the first instant every monitoring node is decided. -/
theorem C1_monitoring_nodes_counterexample :
    ((c1G.nodesStatus.take 24).all (fun b => b) = true)
  ∧ (c1G.nodesStatus.length = 27)
  ∧ ((WatchdogNode.ProcessEvent c1W c1G 5 NodeStatus.POSITIVE_STATUS).2.allNodesConverged = false)
  ∧ ((WatchdogNode.ProcessEvent c1W c1G 5 NodeStatus.POSITIVE_STATUS).2.convergenceTime = 0) :=
  ⟨rfl, rfl, rfl, rfl⟩

/-- Claim C1, amended: after any `ProcessEvent` call the converged flag
equals the old flag or-ed with "every entry of the whole `nodesStatus`
vector is true" — the check ranges over all simulation nodes, not only
the monitoring (watchdog) nodes — and `convergenceTime` is set to the
current time exactly when that check first passes. -/
theorem C1_convergence_checks_every_entry (s : WatchdogNode) (g : GlobalState)
    (now : ℚ) (e : NodeStatus) :
    ((WatchdogNode.ProcessEvent s g now e).2.allNodesConverged
        = (g.allNodesConverged
            || (WatchdogNode.ProcessEvent s g now e).2.nodesStatus.all (fun b => b)))
  ∧ ((WatchdogNode.ProcessEvent s g now e).2.convergenceTime
        = if ((WatchdogNode.ProcessEvent s g now e).2.nodesStatus.all (fun b => b))
              && !g.allNodesConverged then now else g.convergenceTime)
  ∧ ((WatchdogNode.ProcessEvent s g now e).2.nodesStatus.length = g.nodesStatus.length) := by
  refine ⟨ProcessEvent_converged s g now e, ProcessEvent_time s g now e, ?_⟩
  rw [ProcessEvent_nodesStatus]
  split <;> simp

/-- One callback preserves a set converged flag. -/
theorem gstep_converged_mono (g : GlobalState) (e : GEvent)
    (h : g.allNodesConverged = true) : (gstep g e).allNodesConverged = true := by
  cases e with
  | process s now ev =>
      simp only [gstep]
      rw [ProcessEvent_converged, h]
      simp
  | monitor s r now =>
      simp only [gstep]
      rw [MonitorNode_terminal s g r now (Or.inr h)]
      exact h

/-- While the converged flag is set, no callback changes
`convergenceTime`. -/
theorem gstep_time_of_converged (g : GlobalState) (e : GEvent)
    (h : g.allNodesConverged = true) : (gstep g e).convergenceTime = g.convergenceTime := by
  cases e with
  | process s now ev =>
      simp only [gstep]
      rw [ProcessEvent_time, h]
      simp
  | monitor s r now =>
      simp only [gstep]
      rw [MonitorNode_terminal s g r now (Or.inr h)]

/-- A callback that leaves the converged flag false also leaves
`convergenceTime` unchanged. -/
theorem gstep_time_of_not_converged (g : GlobalState) (e : GEvent)
    (h : (gstep g e).allNodesConverged = false) :
    (gstep g e).convergenceTime = g.convergenceTime := by
  cases e with
  | process s now ev =>
      have hcv := ProcessEvent_converged s g now ev
      simp only [gstep] at h ⊢
      rw [h] at hcv
      have hall : (WatchdogNode.ProcessEvent s g now ev).2.nodesStatus.all (fun b => b) = false := by
        cases hx : (WatchdogNode.ProcessEvent s g now ev).2.nodesStatus.all (fun b => b) with
        | false => rfl
        | true => rw [hx] at hcv; simp at hcv
      rw [ProcessEvent_time, hall]
      simp
  | monitor s r now =>
      simp only [gstep] at h ⊢
      unfold WatchdogNode.MonitorNode at h ⊢
      by_cases hterm : (decide (s.m_monitorCount ≥ m_maxMonitorCount)
          || g.allNodesConverged) = true
      · rw [if_pos hterm]
      · rw [if_neg hterm] at h ⊢
        simp only at h ⊢
        have hcv := ProcessEvent_converged s g now (WatchdogNode.evidenceOf r)
        rw [h] at hcv
        have hall : (WatchdogNode.ProcessEvent s g now
            (WatchdogNode.evidenceOf r)).2.nodesStatus.all (fun b => b) = false := by
          cases hx : (WatchdogNode.ProcessEvent s g now
              (WatchdogNode.evidenceOf r)).2.nodesStatus.all (fun b => b) with
          | false => rfl
          | true => rw [hx] at hcv; simp at hcv
        rw [ProcessEvent_time, hall]
        simp

/-- Once converged, a whole trace performs no further false-to-true
transition and no further change of `convergenceTime`. -/
theorem trace_frozen_of_converged (l : List GEvent) :
    ∀ g : GlobalState, g.allNodesConverged = true →
      convergedTransitions g l = 0 ∧ timeWrites g l = 0 := by
  induction l with
  | nil => exact fun g _ => ⟨rfl, rfl⟩
  | cons e rest ih =>
      intro g h
      have h' := gstep_converged_mono g e h
      obtain ⟨h1, h2⟩ := ih (gstep g e) h'
      constructor
      · simp only [convergedTransitions, h1]
        rw [if_neg (by simp [h])]
      · simp only [timeWrites, h2]
        rw [if_neg (by simp [gstep_time_of_converged g e h])]

/-- The converged flag is monotone along any trace of callbacks. -/
theorem foldl_converged_mono (l : List GEvent) :
    ∀ g : GlobalState, g.allNodesConverged = true →
      (l.foldl gstep g).allNodesConverged = true := by
  induction l with
  | nil => exact fun g h => h
  | cons e rest ih => exact fun g h => ih _ (gstep_converged_mono g e h)

/-- The converged flag transitions false-to-true at most once along any
trace. -/
theorem convergedTransitions_le_one (l : List GEvent) :
    ∀ g : GlobalState, convergedTransitions g l ≤ 1 := by
  induction l with
  | nil => exact fun g => Nat.zero_le 1
  | cons e rest ih =>
      intro g
      simp only [convergedTransitions]
      by_cases h1 : g.allNodesConverged = true
      · rw [if_neg (by simp [h1])]
        simpa using ih (gstep g e)
      · have hg : g.allNodesConverged = false := by
          cases hx : g.allNodesConverged with
          | false => rfl
          | true => exact absurd hx h1
        by_cases h2 : (gstep g e).allNodesConverged = true
        · rw [if_pos ⟨hg, h2⟩]
          have := (trace_frozen_of_converged rest (gstep g e) h2).1
          omega
        · rw [if_neg (fun hcontra => h2 hcontra.2)]
          simpa using ih (gstep g e)

/-- `convergenceTime` changes at most as often as the converged flag
transitions. -/
theorem timeWrites_le_transitions (l : List GEvent) :
    ∀ g : GlobalState, timeWrites g l ≤ convergedTransitions g l := by
  induction l with
  | nil => exact fun g => Nat.le_refl 0
  | cons e rest ih =>
      intro g
      simp only [timeWrites, convergedTransitions]
      refine Nat.add_le_add ?_ (ih (gstep g e))
      by_cases hw : (gstep g e).convergenceTime ≠ g.convergenceTime
      · have hpost : (gstep g e).allNodesConverged = true := by
          cases hx : (gstep g e).allNodesConverged with
          | true => rfl
          | false => exact absurd (gstep_time_of_not_converged g e hx) hw
        have hpre : g.allNodesConverged = false := by
          cases hx : g.allNodesConverged with
          | false => rfl
          | true => exact absurd (gstep_time_of_converged g e hx) hw
        rw [if_pos hw, if_pos ⟨hpre, hpost⟩]
      · rw [if_neg hw]
        exact Nat.zero_le _

/-- Claim C7: along any trace of `ProcessEvent`/`MonitorNode` callbacks,
`allNodesConverged` is monotone (once true it stays true), it transitions
false-to-true at most once, and `convergenceTime` changes value at most
at that one transition — so the timestamp is recorded at most once per
run no matter how many watchdogs observe all-decided. -/
theorem C7_converged_monotone_time_once (g : GlobalState) (l : List GEvent) :
    (g.allNodesConverged = true → (l.foldl gstep g).allNodesConverged = true)
  ∧ convergedTransitions g l ≤ 1
  ∧ timeWrites g l ≤ convergedTransitions g l :=
  ⟨fun h => foldl_converged_mono l g h, convergedTransitions_le_one l g,
   timeWrites_le_transitions l g⟩

/-- Claim C7, witness: the monotonicity conjunct applied to a converged
state and the empty trace. -/
theorem C7_converged_monotone_time_once_witness :
    (List.foldl gstep
        { allNodesConverged := true, nodesStatus := [], convergenceTime := 5 }
        ([] : List GEvent)).allNodesConverged = true :=
  (C7_converged_monotone_time_once
      { allNodesConverged := true, nodesStatus := [], convergenceTime := 5 } []).1 rfl

/-- A non-terminal `MonitorNode` firing whose draw yields Unknown
evidence, in a global state that is not all-decided: the only change is
the increment of `m_monitorCount`, and a further round is scheduled. -/
theorem MonitorNode_unknown_step (s : WatchdogNode) (g : GlobalState) (t : ℚ)
    (hc : s.m_monitorCount < m_maxMonitorCount)
    (hg : g.allNodesConverged = false)
    (hall : g.nodesStatus.all (fun b => b) = false) :
    WatchdogNode.MonitorNode s g (9/10) t
      = ({ s with m_monitorCount := s.m_monitorCount + 1 }, g, true) := by
  have he : WatchdogNode.evidenceOf (9/10) = NodeStatus.NO_STATUS := by
    norm_num [WatchdogNode.evidenceOf]
  have hpe : WatchdogNode.ProcessEvent s g t NodeStatus.NO_STATUS = (s, g) := by
    unfold WatchdogNode.ProcessEvent
    simp [hall]
  rw [MonitorNode_nonterminal s g (9/10) t hc hg, he, hpe]

/-- Reaching the `n`-th configuration of the concrete never-converging
run: for `n ≤ 10` every firing so far took the non-terminal branch, so
the state is the attached watchdog with `m_monitorCount = n`, the global
state is untouched, and a further timer is pending. -/
theorem c3after_spec (n : ℕ) : n ≤ 10 →
    c3after n
      = ({ WatchdogNode.Setup WatchdogNode.construct 0 (1/2) with m_monitorCount := n },
         { allNodesConverged := false, nodesStatus := [false, false], convergenceTime := 0 },
         true) := by
  induction n with
  | zero => exact fun _ => rfl
  | succ n ih =>
      intro hn
      have hn' : n ≤ 10 := Nat.le_of_succ_le hn
      have hlt : n < 10 := Nat.lt_of_succ_le hn
      show c3after (n + 1) = _
      simp only [c3after]
      rw [ih hn']
      rw [MonitorNode_unknown_step
            { WatchdogNode.Setup WatchdogNode.construct 0 (1/2) with m_monitorCount := n }
            { allNodesConverged := false, nodesStatus := [false, false], convergenceTime := 0 }
            ((n : ℚ) + 2) hlt rfl rfl]

/-- Claim C3, counterexample: in the concrete never-converging run the
10th round completes with `m_monitorCount = 10` and the handler has still
scheduled a further timer (line `m_event = Simulator::Schedule(...)` runs
unconditionally in the non-terminal branch); only the 11th firing takes
the terminal branch and schedules nothing. -/
theorem C3_tenth_round_still_schedules :
    ((c3after 10).1.m_monitorCount = 10)
  ∧ ((c3after 10).2.2 = true)
  ∧ ((c3after 11).2.2 = false) := by
  have h10 := c3after_spec 10 (by norm_num)
  have h11 : c3after 11
      = WatchdogNode.MonitorNode (c3after 10).1 (c3after 10).2.1 (9/10) ((10 : ℚ) + 2) := rfl
  refine ⟨by rw [h10], by rw [h10], ?_⟩
  rw [h11, h10]
  rw [MonitorNode_terminal _ _ _ _ (Or.inl (by norm_num [m_maxMonitorCount]))]


/-- Each `MonitorNode` firing either leaves `m_monitorCount` unchanged
(terminal branch) or increments it by one after processing evidence. -/
theorem MonitorNode_count (s : WatchdogNode) (g : GlobalState) (r now : ℚ) :
    (WatchdogNode.MonitorNode s g r now).1.m_monitorCount
      = if (decide (s.m_monitorCount ≥ m_maxMonitorCount) || g.allNodesConverged) = true
        then s.m_monitorCount else s.m_monitorCount + 1 := by
  unfold WatchdogNode.MonitorNode
  split
  · rfl
  · simp [ProcessEvent_fst]

/-- At most `m_maxMonitorCount - m_monitorCount` further invocations of
a watchdog's timer chain process an evidence sample. -/
theorem evidenceRounds_le (l : List (GlobalState × ℚ × ℚ)) :
    ∀ s : WatchdogNode, evidenceRounds s l ≤ m_maxMonitorCount - s.m_monitorCount := by
  induction l with
  | nil => exact fun s => Nat.zero_le _
  | cons trip rest ih =>
      intro s
      obtain ⟨g, r, now⟩ := trip
      simp only [evidenceRounds]
      have hcount := MonitorNode_count s g r now
      by_cases h : (decide (s.m_monitorCount < m_maxMonitorCount) && !g.allNodesConverged) = true
      · have hc : s.m_monitorCount < m_maxMonitorCount := by
          simp at h
          exact h.1
        have hg : g.allNodesConverged = false := by
          simp at h
          exact h.2
        have hterm : (decide (s.m_monitorCount ≥ m_maxMonitorCount) || g.allNodesConverged)
            = false := by
          simp [hg, Nat.not_le.mpr hc]
        rw [if_pos h]
        have hrest := ih (WatchdogNode.MonitorNode s g r now).1
        rw [hcount, if_neg (by simp [hterm])] at hrest
        omega
      · have hterm : (decide (s.m_monitorCount ≥ m_maxMonitorCount) || g.allNodesConverged)
            = true := by
          cases hx : g.allNodesConverged with
          | true => simp [hx]
          | false =>
              have hc : m_maxMonitorCount ≤ s.m_monitorCount := by
                by_contra hnot
                exact h (by simp [hx, Nat.lt_of_not_le hnot])
              simp [hc]
        rw [if_neg h]
        have hrest := ih (WatchdogNode.MonitorNode s g r now).1
        rw [hcount, if_pos hterm] at hrest
        simpa using hrest

/-- Claim C3, amended: starting from the constructor state a watchdog
processes an evidence sample in at most 10 invocations of its round
handler, and any terminal invocation (round cap reached or global flag
set) leaves `m_monitorCount` unchanged and schedules no further timer —
but the 10th round itself still schedules one final timer, whose firing
only takes the terminal branch. -/
theorem C3_at_most_ten_rounds (l : List (GlobalState × ℚ × ℚ))
    (s : WatchdogNode) (g : GlobalState) (r now : ℚ) :
    evidenceRounds WatchdogNode.construct l ≤ 10
  ∧ (m_maxMonitorCount ≤ s.m_monitorCount ∨ g.allNodesConverged = true →
        ((WatchdogNode.MonitorNode s g r now).2.2 = false)
      ∧ ((WatchdogNode.MonitorNode s g r now).1.m_monitorCount = s.m_monitorCount)) := by
  constructor
  · exact evidenceRounds_le l WatchdogNode.construct
  · intro h
    rw [MonitorNode_terminal s g r now h]
    exact ⟨rfl, rfl⟩

/-- Claim C3, witness for the amended theorem: a terminal invocation at
the round cap schedules nothing. -/
theorem C3_at_most_ten_rounds_witness :
    (WatchdogNode.MonitorNode { WatchdogNode.construct with m_monitorCount := 10 }
        { allNodesConverged := false, nodesStatus := [false], convergenceTime := 0 }
        0 0).2.2 = false :=
  ((C3_at_most_ten_rounds [] { WatchdogNode.construct with m_monitorCount := 10 }
      { allNodesConverged := false, nodesStatus := [false], convergenceTime := 0 }
      0 0).2 (Or.inl (Nat.le_refl 10))).1

/-- Claim C2: in the reachable terminal configuration of the concrete
run, `m_sentPackets` is `0` and the handler computes
`1.0 - ((double)m_receivedPackets / m_sentPackets)` with no
divide-by-zero guard, storing the IEEE-754 NaN result in
`m_packetLossRate` as if it were a valid loss rate (only the
rescheduling part of the claim holds: the terminal firing schedules no
timer). -/
theorem C2_terminal_lossrate_is_nan :
    ((c3after 11).1.m_sentPackets = 0)
  ∧ ((c3after 11).1.m_packetLossRate = DVal.nan)
  ∧ ((c3after 11).2.2 = false) := by
  have h10 := c3after_spec 10 (by norm_num)
  have h11 : c3after 11
      = WatchdogNode.MonitorNode (c3after 10).1 (c3after 10).2.1 (9/10) ((10 : ℚ) + 2) := rfl
  rw [h11, h10]
  rw [MonitorNode_terminal _ _ _ _ (Or.inl (by norm_num [m_maxMonitorCount]))]
  exact ⟨rfl, rfl, rfl⟩
